import Mathlib

/-!
Verification development for the multimodal prompt-testing page
(`src/app/page.tsx`) and its simulation engine.

The page component is translated directly from `src/app/page.tsx`.
The modules `app/lib/models` and `app/lib/simulation` are imported by the
page but are not part of the provided sources; the definitions for them
below are modelled from the specification (each such definition says so in
its doc comment).  Scores are modelled as rationals (`ℚ`): every comparison
the code performs on them is an exact order comparison.
-/

/-- Catalog entry for one model (spec §3 Data Model, `Model`). -/
structure Model where
  id : String
  name : String
  vendor : String
  capabilities : List String
  modalitySupport : List String
  release : String
  description : String
deriving DecidableEq

/-- The prompt payload handed to the engine (spec §3, `PromptPayload`);
field order follows the object literal built in `handleSubmit`. -/
structure PromptPayload where
  text : String
  imageFileName : Option String
  imageDataUrl : Option String
  modality : String
deriving DecidableEq

/-- The four per-dimension scores (spec §3, `CrossEvaluation.metrics`). -/
structure MetricScores where
  quality : ℚ
  clarity : ℚ
  relevance : ℚ
  accuracy : ℚ
deriving DecidableEq

/-- One synthesized response (spec §3, `ModelResponse`). -/
structure ModelResponse where
  modelId : String
  content : String
  highlights : List String
  modalitySupport : List String
deriving DecidableEq

/-- One peer judgment (spec §3, `CrossEvaluation`). -/
structure CrossEvaluation where
  judgeModelId : String
  targetModelId : String
  overall : ℚ
  metrics : MetricScores
  rationale : String
deriving DecidableEq

/-- Aggregate score of one target model (spec §3, `AggregatedScore`). -/
structure AggregatedScore where
  modelId : String
  meanMetrics : MetricScores
  overall : ℚ
deriving DecidableEq

/-- One meta-evaluator ranking entry (spec §3, `GeminiRankingEntry`). -/
structure GeminiRankingEntry where
  modelId : String
  placement : Nat
  confidence : ℚ
  rationale : String
deriving DecidableEq

/-- The root outcome object (spec §3, `SimulationOutcome`). -/
structure SimulationOutcome where
  responses : List ModelResponse
  crossEvaluations : List CrossEvaluation
  aggregates : List AggregatedScore
  topThree : List AggregatedScore
  geminiRanking : List GeminiRankingEntry
deriving DecidableEq

/-- Modelled from the spec: the designated meta-evaluator id exported by
`app/lib/models`, a module not present in the provided sources.  The page
refers to it as `META_EVALUATOR_ID`. -/
def META_EVALUATOR_ID : String := "gemini-2.5-pro"

/-- Modelled from the spec: the static, immutable model catalog
(`MODEL_OPTIONS` in `app/lib/models`, not present in the provided sources).
The spec fixes its shape (id, name, vendor, capabilities, modality support,
release, description) and that it contains the designated meta-evaluator;
the concrete entries are illustrative. -/
def MODEL_OPTIONS : List Model :=
  [ ⟨"gpt-5", "GPT-5", "OpenAI", ["text", "vision"], ["text", "image"],
      "2025", "Frontier reasoning model with multimodal input."⟩
  , ⟨"claude-sonnet-4", "Claude Sonnet 4", "Anthropic", ["text", "vision"],
      ["text", "image"], "2025", "Balanced model for analysis and writing."⟩
  , ⟨"llama-4", "Llama 4", "Meta", ["text", "vision"], ["text", "image"],
      "2025", "Open-weight multimodal generalist."⟩
  , ⟨"mistral-large-2", "Mistral Large 2", "Mistral", ["text"], ["text"],
      "2024", "Efficient frontier-class text model."⟩
  , ⟨"qwen-3", "Qwen 3", "Alibaba", ["text", "vision"], ["text", "image"],
      "2025", "Multilingual multimodal model."⟩
  , ⟨"gemini-2.5-pro", "Gemini 2.5 Pro", "Google", ["text", "vision"],
      ["text", "image"], "2025", "Designated meta-evaluator for final adjudication."⟩
  ]

/-- Modelled from the spec: `getModelById(id) -> Model | absent`, a pure
lookup over the static catalog (spec §4.1). -/
def getModelById (id : String) : Option Model :=
  MODEL_OPTIONS.find? (fun m => m.id = id)

/-- `selectableModels` from `src/app/page.tsx` lines 23-25: the catalog
filtered to remove the meta-evaluator. -/
def selectableModels : List Model :=
  MODEL_OPTIONS.filter (fun model => model.id ≠ META_EVALUATOR_ID)

/-- `metaEvaluator` from `src/app/page.tsx` line 27. -/
def metaEvaluator : Option Model := getModelById META_EVALUATOR_ID

/-- `MIN_MODELS` from `src/app/page.tsx` line 15. -/
def MIN_MODELS : Nat := 4

/-- `MAX_MODELS` from `src/app/page.tsx` line 16. -/
def MAX_MODELS : Nat := 5

/-- `ImageAttachment` from `src/app/page.tsx` lines 18-21. -/
structure ImageAttachment where
  name : String
  dataUrl : String
deriving DecidableEq

/-- The React state of `HomePage` (`src/app/page.tsx` lines 30-38). -/
structure PageState where
  selected : List String
  promptText : String
  imageAttachment : Option ImageAttachment
  simulation : Option SimulationOutcome
  processing : Bool
  error : Option String
  userChoice : Option String
deriving DecidableEq

/-- `handleToggleModel` from `src/app/page.tsx` lines 40-50: the state
updater applied to the previous `selected` list. -/
def handleToggleModel (modelId : String) (prev : List String) : List String :=
  if modelId ∈ prev then
    prev.filter (fun id => id ≠ modelId)
  else if MAX_MODELS ≤ prev.length then
    prev
  else
    prev ++ [modelId]

/-- The `selected` list reached from the initial empty selection by a
sequence of `handleToggleModel` clicks (`useState<string[]>([])`). -/
def applyToggles (ids : List String) : List String :=
  ids.foldl (fun acc id => handleToggleModel id acc) []

/-- Error message of `src/app/page.tsx` line 79. -/
def minModelsError : String :=
  "Select at least " ++ toString MIN_MODELS ++ " models to run a comparison."

/-- Error message of `src/app/page.tsx` line 83. -/
def maxModelsError : String :=
  "You can compare at most " ++ toString MAX_MODELS ++ " models at a time."

/-- Error message of `src/app/page.tsx` line 87. -/
def emptyPromptError : String := "Enter a descriptive prompt to evaluate."

/-- JavaScript `String.prototype.trim`: the string with leading and
trailing whitespace removed, computed on the character list. -/
def jsTrim (s : String) : String :=
  ⟨((s.data.dropWhile Char.isWhitespace).reverse.dropWhile Char.isWhitespace).reverse⟩

/-- The `promptPayload` object literal of `src/app/page.tsx` lines 94-99. -/
def promptPayloadOf (promptText : String) (att : Option ImageAttachment) :
    PromptPayload :=
  { text := jsTrim promptText
  , imageFileName := att.map (fun a => a.name)
  , imageDataUrl := att.map (fun a => a.dataUrl)
  , modality := if att.isSome then "multimodal" else "text" }

/-- `handleSubmit` from `src/app/page.tsx` lines 76-105, as a transition on
the page state.  The engine call is abstracted as the parameter `f`, so a
theorem quantifying over `f` expresses that the engine is (or is not)
invoked.  The three guards and the final state update mirror the source:
on success `simulation` is replaced, `userChoice` is reset to `null`,
`error` is cleared and `processing` ends `false`. -/
def handleSubmit (f : List String → PromptPayload → SimulationOutcome)
    (s : PageState) : PageState :=
  if s.selected.length < MIN_MODELS then
    { s with error := some minModelsError }
  else if MAX_MODELS < s.selected.length then
    { s with error := some maxModelsError }
  else if jsTrim s.promptText = "" then
    { s with error := some emptyPromptError }
  else
    { s with processing := false
           , error := none
           , simulation := some (f s.selected (promptPayloadOf s.promptText s.imageAttachment))
           , userChoice := none }

/-- ECMAScript `Array.prototype.sort` is required to be stable, and the page
sorts with comparator `(a, b) => b.overall - a.overall`; the result is the
stable descending-by-`overall` reordering.  `precedesByOverall a b` holds
when the comparator allows `a` to stay before `b`. -/
def precedesByOverall (a b : AggregatedScore) : Prop := b.overall ≤ a.overall

instance : DecidableRel precedesByOverall :=
  fun a b => (inferInstance : Decidable (b.overall ≤ a.overall))

instance : IsTotal AggregatedScore precedesByOverall :=
  ⟨fun a b => le_total b.overall a.overall⟩

instance : IsTrans AggregatedScore precedesByOverall :=
  ⟨fun _ _ _ hab hbc => le_trans hbc hab⟩

/-- The `leaderboard` memo of `src/app/page.tsx` lines 107-110:
`[]` without a simulation, otherwise `[...aggregates]` stably sorted by
descending `overall` (Mathlib's `insertionSort` is stable, matching the
ECMAScript sort semantics). -/
def leaderboard (sim : Option SimulationOutcome) : List AggregatedScore :=
  match sim with
  | none => []
  | some s => List.insertionSort precedesByOverall s.aggregates

/-- The display-name fallback pattern `model?.name ?? id` used throughout
the render code (`src/app/page.tsx` lines 154, 348, 396, 435). -/
def displayName (id : String) : String :=
  ((getModelById id).map (fun m => m.name)).getD id

/-- `geminiTop` from `src/app/page.tsx` lines 119-121. -/
def geminiTopOf (s : PageState) : Option GeminiRankingEntry :=
  match s.simulation with
  | none => none
  | some sim => sim.geminiRanking.find? (fun item => item.placement = 1)

/-- The value produced by the `alignmentState` memo when non-null. -/
structure AlignmentState where
  aligned : Bool
  message : String
deriving DecidableEq

/-- The message string built in `src/app/page.tsx` lines 130-138. -/
def alignmentMessage (aligned : Bool) (choice : String)
    (top : GeminiRankingEntry) : String :=
  let metaName := (metaEvaluator.map (fun m => m.name)).getD "Gemini"
  let userName := ((getModelById choice).map (fun m => m.name)).getD choice
  let geminiName :=
    ((getModelById top.modelId).map (fun m => m.name)).getD top.modelId
  if aligned then
    "Alignment confirmed. You and " ++ metaName ++ " both favored " ++
      userName ++ "."
  else
    "Divergence detected. You preferred " ++ userName ++ ", while " ++
      metaName ++ " selected " ++ geminiName ++ "."

/-- `alignmentState` from `src/app/page.tsx` lines 123-140.  The guard
`if (!simulation || !userChoice || !geminiTop) return null` also rejects an
empty-string `userChoice` (falsy in JavaScript), hence the extra test. -/
def alignmentState (s : PageState) : Option AlignmentState :=
  match s.simulation, s.userChoice, geminiTopOf s with
  | some _, some choice, some top =>
      if choice = "" then none
      else
        let aligned : Bool := choice = top.modelId
        some { aligned := aligned
             , message := alignmentMessage aligned choice top }
  | _, _, _ => none

/-- Modelled from the spec (§9 design notes, `app/lib/simulation` not in the
provided sources): a seed derived deterministically from a string, used for
all synthetic score/content variation. -/
def strSeed (s : String) : Nat :=
  s.foldl (fun a c => a * 31 + c.toNat) 7

/-- Modelled from the spec: map a seed into a score in `[0, 10]`
(41 quarter-point steps). -/
def scoreIn10 (n : Nat) : ℚ := (n % 41 : ℚ) / 4

/-- Modelled from the spec (§4.2 Response Synthesizer, `app/lib/simulation`
not in the provided sources): one synthetic response, a pure function of
`(modelId, prompt)` templating the model's name and vendor into the
content. -/
def synthesizeResponse (modelId : String) (p : PromptPayload) : ModelResponse :=
  let m := getModelById modelId
  let name := (m.map (fun x => x.name)).getD modelId
  let vendor := (m.map (fun x => x.vendor)).getD "unknown"
  { modelId := modelId
  , content := name ++ " (" ++ vendor ++ ") responds to: " ++ p.text
  , highlights :=
      [ "Structured reasoning from " ++ name
      , "Grounded in a " ++ p.modality ++ " prompt" ]
  , modalitySupport := (m.map (fun x => x.modalitySupport)).getD ["text"] }

/-- Modelled from the spec (§4.3 Cross-Evaluation Matrix Builder): one peer
judgment, a reproducible function of `(judgeModelId, targetModelId, target
content)`; `overall` is the equally-weighted mean of the four metrics. -/
def crossEvaluate (judgeId : String) (target : ModelResponse) : CrossEvaluation :=
  let base := strSeed (judgeId ++ "|" ++ target.modelId ++ "|" ++ target.content)
  let q := scoreIn10 base
  let c := scoreIn10 (base + 11)
  let r := scoreIn10 (base + 23)
  let a := scoreIn10 (base + 37)
  { judgeModelId := judgeId
  , targetModelId := target.modelId
  , overall := (q + c + r + a) / 4
  , metrics := ⟨q, c, r, a⟩
  , rationale := judgeId ++ " reviewed the answer from " ++ target.modelId }

/-- Modelled from the spec (§4.3): a `CrossEvaluation` for every ordered
pair of responses with distinct model ids; no self-pairs. -/
def buildCrossEvaluations (responses : List ModelResponse) : List CrossEvaluation :=
  responses.flatMap (fun judge =>
    (responses.filter (fun target => target.modelId ≠ judge.modelId)).map
      (fun target => crossEvaluate judge.modelId target))

/-- Modelled from the spec (§4.4 Aggregator): mean of each metric dimension
and of `overall` over the evaluations targeting `id`; all-zero default when
no evaluation targets `id`. -/
def aggregateFor (evals : List CrossEvaluation) (id : String) : AggregatedScore :=
  let mine := evals.filter (fun e => e.targetModelId = id)
  if mine.isEmpty then
    { modelId := id, meanMetrics := ⟨0, 0, 0, 0⟩, overall := 0 }
  else
    let n : ℚ := mine.length
    { modelId := id
    , meanMetrics :=
        ⟨ (mine.map (fun e => e.metrics.quality)).sum / n
        , (mine.map (fun e => e.metrics.clarity)).sum / n
        , (mine.map (fun e => e.metrics.relevance)).sum / n
        , (mine.map (fun e => e.metrics.accuracy)).sum / n ⟩
    , overall := (mine.map (fun e => e.overall)).sum / n }

/-- Modelled from the spec (§4.4 tie-break): descending `overall`, ties by
higher mean `accuracy`, then lexicographic model id — a total order on
aggregates. -/
def rankPrecedes (a b : AggregatedScore) : Prop :=
  b.overall < a.overall ∨
    (a.overall = b.overall ∧
      (b.meanMetrics.accuracy < a.meanMetrics.accuracy ∨
        (a.meanMetrics.accuracy = b.meanMetrics.accuracy ∧ a.modelId ≤ b.modelId)))

instance : DecidableRel rankPrecedes :=
  fun a b => inferInstanceAs (Decidable (_ ∨ _))

/-- Modelled from the spec (§4.5): the meta-evaluator's deterministic score
for a candidate, seeded from the meta-evaluator id, the candidate id and the
prompt text. -/
def metaScore (id : String) (p : PromptPayload) : ℚ :=
  scoreIn10 (strSeed (META_EVALUATOR_ID ++ "#" ++ id ++ "#" ++ p.text))

/-- Modelled from the spec (§4.5): the meta-evaluator may reorder the top
three; `metaPrecedes p a b` holds when `a` may stay before `b` under its
re-scoring. -/
def metaPrecedes (p : PromptPayload) (a b : AggregatedScore) : Prop :=
  metaScore b.modelId p ≤ metaScore a.modelId p

instance (p : PromptPayload) : DecidableRel (metaPrecedes p) :=
  fun a b => inferInstanceAs (Decidable (_ ≤ _))

/-- Modelled from the spec (§4.5 Meta-Evaluator Ranker): re-rank the top
candidates by meta score and emit placements `1, 2, ...` in that order, with
confidence `metaScore / 10 ∈ [0, 1]`. -/
def geminiRankingOf (top : List AggregatedScore) (p : PromptPayload) :
    List GeminiRankingEntry :=
  (List.insertionSort (metaPrecedes p) top).enum.map (fun pr =>
    { modelId := pr.2.modelId
    , placement := pr.1 + 1
    , confidence := metaScore pr.2.modelId p / 10
    , rationale :=
        "Meta review placed " ++ pr.2.modelId ++ " at rank " ++
          toString (pr.1 + 1) ++ "." })

/-- Modelled from the spec (§7 error taxonomy). -/
inductive SimError where
  | InvalidSelection
  | InvalidPrompt
deriving DecidableEq

/-- Modelled from the spec (§4, §6, `app/lib/simulation` not in the provided
sources): the engine `simulateEvaluation(selectedModelIds, prompt)`.
Validation first (`InvalidSelection` for a size outside `[4, 5]`, a
duplicate id or an unknown id; `InvalidPrompt` for a prompt empty after
trimming), then the synchronous pipeline: synthesize responses in selection
order, build the full judge×target matrix, aggregate per selected id, rank
with the documented tie-break, take the top three, and re-rank them under
the meta-evaluator. -/
def simulateEvaluation (sel : List String) (p : PromptPayload) :
    Except SimError SimulationOutcome :=
  if sel.length < 4 ∨ 5 < sel.length then
    Except.error SimError.InvalidSelection
  else if ¬ sel.Nodup then
    Except.error SimError.InvalidSelection
  else if sel.any (fun id => (getModelById id).isNone) then
    Except.error SimError.InvalidSelection
  else if jsTrim p.text = "" then
    Except.error SimError.InvalidPrompt
  else
    let responses := sel.map (fun id => synthesizeResponse id p)
    let cross := buildCrossEvaluations responses
    let aggs := sel.map (fun id => aggregateFor cross id)
    let ranked := List.insertionSort rankPrecedes aggs
    let top := ranked.take 3
    Except.ok
      { responses := responses
      , crossEvaluations := cross
      , aggregates := aggs
      , topThree := top
      , geminiRanking := geminiRankingOf top p }

/-- Modelled from the spec (§4.2, §5, §9): the ambient effects a client-side
computation could observe — wall-clock time and an unseeded random stream.
The spec requires the engine never to consult them. -/
structure AmbientEnv where
  wallClockMs : Nat
  randomStream : Nat → Nat

/-- Modelled from the spec: the engine as it runs in the browser, with the
ambient environment in scope.  Per spec §4.2/§5 the computation is pure and
consults neither the clock nor the random stream. -/
def simulateEvaluationIn (_env : AmbientEnv) (sel : List String)
    (p : PromptPayload) : Except SimError SimulationOutcome :=
  simulateEvaluation sel p

/-! ### Concrete values used by witnesses -/

/-- An empty outcome used as a stand-in engine result in witnesses. -/
def dummyOutcomeA : SimulationOutcome := ⟨[], [], [], [], []⟩

/-- A second, distinct stand-in engine result. -/
def dummyOutcomeB : SimulationOutcome :=
  ⟨[], [⟨"j", "t", 1, ⟨1, 1, 1, 1⟩, "r"⟩], [], [], []⟩

/-- A state whose prompt is whitespace-only. -/
def emptyPromptState : PageState :=
  ⟨["gpt-5", "llama-4", "qwen-3", "mistral-large-2"], "   ", none, some dummyOutcomeB,
    false, none, some "gpt-5"⟩

/-- A state with only three selected models. -/
def shortSelectionState : PageState :=
  ⟨["gpt-5", "llama-4", "qwen-3"], "Summarize quarterly earnings", none,
    some dummyOutcomeB, false, none, some "gpt-5"⟩

/-- A state that passes all three `handleSubmit` guards. -/
def validSubmitState : PageState :=
  ⟨["gpt-5", "claude-sonnet-4", "llama-4", "qwen-3"],
    "  Summarize quarterly earnings  ",
    some ⟨"chart.png", "data:image/png;base64,AAA"⟩, none, false, none, none⟩

/-! ### C6 -/

/-- C6: the user-selectable model list is exactly the catalog with the
designated meta-evaluator removed — a model is in `selectableModels` iff it
is a catalog entry whose id differs from `META_EVALUATOR_ID`, and the
meta-evaluator id is never offered. -/
theorem selectableModels_is_catalog_minus_meta :
    (∀ m : Model,
        m ∈ selectableModels ↔ m ∈ MODEL_OPTIONS ∧ m.id ≠ META_EVALUATOR_ID) ∧
    META_EVALUATOR_ID ∉ selectableModels.map (fun m => m.id) := by
  constructor
  · intro m
    simp [selectableModels, List.mem_filter]
  · decide

/-! ### C8 -/

/-- C8: the display name used by the render code tolerates an absent
`getModelById` lookup — it falls back to the raw id string, and resolves to
the catalog name otherwise. -/
theorem displayName_falls_back_to_id :
    ∀ id : String,
      (getModelById id = none → displayName id = id) ∧
      (∀ m : Model, getModelById id = some m → displayName id = m.name) := by
  intro id
  constructor
  · intro h
    simp [displayName, h]
  · intro m h
    simp [displayName, h]

/-- Witness for C8 at the unknown id `"no-such-model"`. -/
theorem displayName_falls_back_to_id_witness :
    getModelById "no-such-model" = none ∧
    displayName "no-such-model" = "no-such-model" :=
  ⟨by decide, (displayName_falls_back_to_id "no-such-model").1 (by decide)⟩

/-! ### C2 -/

/-- C2: a submission whose prompt is empty or whitespace-only after trimming
is rejected with an error before any synthesis: the resulting state does not
depend on the engine (`f` vs `g`), the stored simulation is unchanged, and
an error is surfaced. -/
theorem handleSubmit_whitespace_prompt_rejected :
    ∀ (f g : List String → PromptPayload → SimulationOutcome) (s : PageState),
      jsTrim s.promptText = "" →
      handleSubmit f s = handleSubmit g s ∧
      (handleSubmit f s).simulation = s.simulation ∧
      (handleSubmit f s).error.isSome = true := by
  intro f g s h
  unfold handleSubmit
  split_ifs <;> simp_all

/-- Witness for C2 at a whitespace-only prompt `"   "`. -/
theorem handleSubmit_whitespace_prompt_rejected_witness :
    handleSubmit (fun _ _ => dummyOutcomeA) emptyPromptState =
      handleSubmit (fun _ _ => dummyOutcomeB) emptyPromptState ∧
    (handleSubmit (fun _ _ => dummyOutcomeA) emptyPromptState).simulation =
      emptyPromptState.simulation ∧
    (handleSubmit (fun _ _ => dummyOutcomeA) emptyPromptState).error.isSome = true :=
  handleSubmit_whitespace_prompt_rejected _ _ emptyPromptState (by decide)

/-! ### C3 -/

/-- C3: a submission whose selected list has length outside `[4, 5]` is
rejected with an error before any synthesis: the resulting state does not
depend on the engine, the stored simulation is unchanged, and an error is
surfaced. -/
theorem handleSubmit_bad_selection_rejected :
    ∀ (f g : List String → PromptPayload → SimulationOutcome) (s : PageState),
      (s.selected.length < MIN_MODELS ∨ MAX_MODELS < s.selected.length) →
      handleSubmit f s = handleSubmit g s ∧
      (handleSubmit f s).simulation = s.simulation ∧
      (handleSubmit f s).error.isSome = true := by
  intro f g s h
  unfold handleSubmit
  split_ifs <;> first
    | simp_all
    | (exfalso; revert h; simp_all [MIN_MODELS, MAX_MODELS]; omega)

/-- Witness for C3 at a selection of three models. -/
theorem handleSubmit_bad_selection_rejected_witness :
    handleSubmit (fun _ _ => dummyOutcomeA) shortSelectionState =
      handleSubmit (fun _ _ => dummyOutcomeB) shortSelectionState ∧
    (handleSubmit (fun _ _ => dummyOutcomeA) shortSelectionState).simulation =
      shortSelectionState.simulation ∧
    (handleSubmit (fun _ _ => dummyOutcomeA) shortSelectionState).error.isSome = true :=
  handleSubmit_bad_selection_rejected _ _ shortSelectionState (by decide)

/-! ### C7 -/

/-- C7: on an accepted submission, the payload handed to the engine has
`text` equal to the trimmed prompt (hence non-empty), `modality`
`"multimodal"` exactly when an image attachment is present and `"text"`
otherwise, and the image fields taken from the attachment. -/
theorem handleSubmit_accepted_payload :
    ∀ s : PageState,
      ¬ s.selected.length < MIN_MODELS →
      ¬ MAX_MODELS < s.selected.length →
      jsTrim s.promptText ≠ "" →
      ∃ p : PromptPayload,
        (∀ f, (handleSubmit f s).simulation = some (f s.selected p)) ∧
        p.text = jsTrim s.promptText ∧
        p.text ≠ "" ∧
        (s.imageAttachment.isSome = true → p.modality = "multimodal") ∧
        (s.imageAttachment = none → p.modality = "text") ∧
        p.imageFileName = s.imageAttachment.map (fun a => a.name) ∧
        p.imageDataUrl = s.imageAttachment.map (fun a => a.dataUrl) := by
  intro s h1 h2 h3
  refine ⟨promptPayloadOf s.promptText s.imageAttachment, ?_, rfl, h3, ?_, ?_, rfl, rfl⟩
  · intro f
    unfold handleSubmit
    split_ifs <;> simp_all
  · intro h
    simp [promptPayloadOf, h]
  · intro h
    simp [promptPayloadOf, h]

/-- Witness for C7 at a concrete accepted submission with an attachment. -/
theorem handleSubmit_accepted_payload_witness :
    ∃ p : PromptPayload,
      (∀ f, (handleSubmit f validSubmitState).simulation =
        some (f validSubmitState.selected p)) ∧
      p.text = jsTrim validSubmitState.promptText ∧
      p.text ≠ "" ∧
      (validSubmitState.imageAttachment.isSome = true → p.modality = "multimodal") ∧
      (validSubmitState.imageAttachment = none → p.modality = "text") ∧
      p.imageFileName = validSubmitState.imageAttachment.map (fun a => a.name) ∧
      p.imageDataUrl = validSubmitState.imageAttachment.map (fun a => a.dataUrl) :=
  handleSubmit_accepted_payload validSubmitState (by decide) (by decide) (by decide)

/-! ### C5 -/

/-- C5: the engine is deterministic — its result, hence the `responses`
content and the `crossEvaluations` scores, does not depend on the ambient
environment (wall-clock time, unseeded randomness); two invocations with
identical `(selectedModelIds, prompt)` agree. -/
theorem simulateEvaluation_deterministic :
    ∀ (env₁ env₂ : AmbientEnv) (sel : List String) (p : PromptPayload),
      simulateEvaluationIn env₁ sel p = simulateEvaluationIn env₂ sel p ∧
      (simulateEvaluationIn env₁ sel p).map
          (fun o => o.responses.map (fun r => r.content)) =
        (simulateEvaluationIn env₂ sel p).map
          (fun o => o.responses.map (fun r => r.content)) ∧
      (simulateEvaluationIn env₁ sel p).map
          (fun o => o.crossEvaluations.map (fun e => (e.overall, e.metrics))) =
        (simulateEvaluationIn env₂ sel p).map
          (fun o => o.crossEvaluations.map (fun e => (e.overall, e.metrics))) :=
  fun _ _ _ _ => ⟨rfl, rfl, rfl⟩

/-! ### C9 -/

/-- One toggle preserves distinctness and the selection cap. -/
theorem handleToggleModel_preserves (modelId : String) (prev : List String)
    (h1 : prev.Nodup) (h2 : prev.length ≤ MAX_MODELS) :
    (handleToggleModel modelId prev).Nodup ∧
      (handleToggleModel modelId prev).length ≤ MAX_MODELS := by
  unfold handleToggleModel
  split_ifs with hmem hlen
  · exact ⟨h1.filter _, le_trans (List.length_filter_le _ _) h2⟩
  · exact ⟨h1, h2⟩
  · constructor
    · simp only [List.nodup_append, List.nodup_cons, List.not_mem_nil,
        not_false_iff, List.nodup_nil, and_true, true_and]
      exact ⟨h1, fun a ha hb => hmem ((List.mem_singleton.mp hb) ▸ ha)⟩
    · simp only [List.length_append, List.length_singleton]
      omega

/-- The toggle invariant, generalized over the starting selection. -/
theorem applyToggles_invariant_aux :
    ∀ (ids prev : List String), prev.Nodup → prev.length ≤ MAX_MODELS →
      (ids.foldl (fun acc id => handleToggleModel id acc) prev).Nodup ∧
      (ids.foldl (fun acc id => handleToggleModel id acc) prev).length ≤ MAX_MODELS := by
  intro ids
  induction ids with
  | nil => intro prev h1 h2; exact ⟨h1, h2⟩
  | cons x xs ih =>
    intro prev h1 h2
    have h := handleToggleModel_preserves x prev h1 h2
    simpa [List.foldl_cons] using ih _ h.1 h.2

/-- C9: from the empty initial selection, every sequence of
`handleToggleModel` clicks yields a duplicate-free selection of length at
most `MAX_MODELS`; toggling a selected id removes it, toggling a new id at
the cap leaves the list unchanged, and consequently the `handleSubmit`
branch rejecting more than `MAX_MODELS` selections is unreachable. -/
theorem handleToggleModel_selection_invariant :
    ∀ ids : List String,
      (applyToggles ids).Nodup ∧
      (applyToggles ids).length ≤ MAX_MODELS ∧
      (∀ (modelId : String) (prev : List String), modelId ∈ prev →
        handleToggleModel modelId prev = prev.filter (fun id => id ≠ modelId)) ∧
      (∀ (modelId : String) (prev : List String), modelId ∉ prev →
        prev.length = MAX_MODELS → handleToggleModel modelId prev = prev) ∧
      (∀ (f : List String → PromptPayload → SimulationOutcome) (s : PageState),
        s.selected = applyToggles ids →
        (handleSubmit f s).error ≠ some maxModelsError) := by
  intro ids
  have hinv := applyToggles_invariant_aux ids [] (by simp) (by simp)
  refine ⟨hinv.1, hinv.2, ?_, ?_, ?_⟩
  · intro modelId prev hm
    simp [handleToggleModel, hm]
  · intro modelId prev hm hlen
    simp [handleToggleModel, hm, hlen]
  · intro f s hs
    have hlen : s.selected.length ≤ MAX_MODELS := hs ▸ hinv.2
    unfold handleSubmit
    split_ifs with g1 g2 g3
    · show some minModelsError ≠ some maxModelsError
      decide
    · exact absurd g2 (not_lt.mpr hlen)
    · show some emptyPromptError ≠ some maxModelsError
      decide
    · show none ≠ some maxModelsError
      simp

/-- A page state whose selection was reached by toggling. -/
def toggledState : PageState :=
  ⟨applyToggles ["gpt-5", "llama-4", "gpt-5", "qwen-3"], "x", none, none,
    false, none, none⟩

/-- Witness for C9 at a concrete toggle sequence containing a repeat. -/
theorem handleToggleModel_selection_invariant_witness :
    (applyToggles ["gpt-5", "llama-4", "gpt-5", "qwen-3"]).Nodup ∧
    handleToggleModel "llama-4" ["gpt-5", "llama-4", "qwen-3"] = ["gpt-5", "qwen-3"] ∧
    handleToggleModel "m6" ["m1", "m2", "m3", "m4", "m5"] = ["m1", "m2", "m3", "m4", "m5"] ∧
    (handleSubmit (fun _ _ => dummyOutcomeA) toggledState).error ≠ some maxModelsError := by
  have h := handleToggleModel_selection_invariant ["gpt-5", "llama-4", "gpt-5", "qwen-3"]
  exact ⟨h.1, (h.2.2.1 "llama-4" _ (by decide)).trans (by decide),
    h.2.2.2.1 "m6" _ (by decide) (by decide),
    h.2.2.2.2 (fun _ _ => dummyOutcomeA) toggledState rfl⟩

/-! ### C10 -/

/-- C10: the alignment verdict exists only when a simulation exists, a user
choice exists, and the meta ranking has a placement-1 entry; in that case
`aligned` holds iff the chosen id equals the placement-1 entry's model id;
and a successful submission resets the user choice to null. -/
theorem alignmentState_spec :
    (∀ (s : PageState) (a : AlignmentState),
        alignmentState s = some a →
        s.simulation.isSome = true ∧
        (∃ choice, s.userChoice = some choice ∧
          ∃ top, geminiTopOf s = some top ∧ top.placement = 1 ∧
            (a.aligned = true ↔ choice = top.modelId))) ∧
    (∀ (f : List String → PromptPayload → SimulationOutcome) (s : PageState),
        ¬ s.selected.length < MIN_MODELS →
        ¬ MAX_MODELS < s.selected.length →
        jsTrim s.promptText ≠ "" →
        (handleSubmit f s).userChoice = none) := by
  constructor
  · intro s a h
    unfold alignmentState at h
    cases hsim : s.simulation with
    | none => rw [hsim] at h; cases h
    | some sim =>
      cases huc : s.userChoice with
      | none => rw [hsim, huc] at h; cases h
      | some choice =>
        cases htop : geminiTopOf s with
        | none => rw [hsim, huc, htop] at h; cases h
        | some top =>
          rw [hsim, huc, htop] at h
          have h' : (if choice = "" then (none : Option AlignmentState)
              else some ⟨decide (choice = top.modelId),
                alignmentMessage (decide (choice = top.modelId)) choice top⟩) =
              some a := h
          by_cases hch : choice = ""
          · rw [if_pos hch] at h'; cases h'
          · rw [if_neg hch] at h'
            have ha : a = ⟨decide (choice = top.modelId),
                alignmentMessage (decide (choice = top.modelId)) choice top⟩ :=
              (Option.some.inj h').symm
            have hplace : top.placement = 1 := by
              unfold geminiTopOf at htop
              rw [hsim] at htop
              have htop' : sim.geminiRanking.find?
                  (fun item => item.placement = 1) = some top := htop
              have hp := List.find?_some htop'
              simpa using hp
            refine ⟨by simp, choice, rfl, top, rfl, hplace, ?_⟩
            rw [ha]
            simp
  · intro f s h1 h2 h3
    unfold handleSubmit
    split_ifs <;> simp_all

/-- The placement-1 meta ranking entry used in the C10 witness. -/
def cTop : GeminiRankingEntry := ⟨"gpt-5", 1, 9 / 10, "Meta pick"⟩

/-- An outcome whose meta ranking has `cTop` in first place. -/
def cOutcome : SimulationOutcome := ⟨[], [], [], [], [cTop]⟩

/-- A state with a simulation and a user choice matching the meta pick. -/
def cAlignedState : PageState :=
  ⟨[], "", none, some cOutcome, false, none, some "gpt-5"⟩

/-- The alignment value produced at `cAlignedState`. -/
def cAlign : AlignmentState := ⟨true, alignmentMessage true "gpt-5" cTop⟩

/-- Witness for C10 at a concrete aligned state and a concrete accepted
submission. -/
theorem alignmentState_spec_witness :
    (cAlignedState.simulation.isSome = true ∧
      (∃ choice, cAlignedState.userChoice = some choice ∧
        ∃ top, geminiTopOf cAlignedState = some top ∧ top.placement = 1 ∧
          (cAlign.aligned = true ↔ choice = top.modelId))) ∧
    (handleSubmit (fun _ _ => dummyOutcomeA) validSubmitState).userChoice = none :=
  ⟨alignmentState_spec.1 cAlignedState cAlign (by decide),
   alignmentState_spec.2 (fun _ _ => dummyOutcomeA) validSubmitState
     (by decide) (by decide) (by decide)⟩

/-! ### C1 -/

/-- An aggregate with overall 5 and mean accuracy 2. -/
def tieAggA : AggregatedScore := ⟨"tie-a", ⟨5, 5, 5, 2⟩, 5⟩

/-- An aggregate with the same overall 5 but higher mean accuracy 8. -/
def tieAggB : AggregatedScore := ⟨"tie-b", ⟨5, 5, 5, 8⟩, 5⟩

/-- An outcome whose aggregates tie on `overall`, lower accuracy first. -/
def tieOutcome : SimulationOutcome := ⟨[], [], [tieAggA, tieAggB], [], []⟩

/-- C1 counterexample: the page sorts the leaderboard only with the
comparator `b.overall - a.overall`; on two aggregates with equal `overall`
the original order is kept, so the entry with the higher mean accuracy does
not appear earlier, contradicting the claimed accuracy tie-break. -/
theorem leaderboard_tie_counterexample :
    tieAggA.overall = tieAggB.overall ∧
    tieAggA.meanMetrics.accuracy < tieAggB.meanMetrics.accuracy ∧
    leaderboard (some tieOutcome) = [tieAggA, tieAggB] := by
  refine ⟨by decide, by decide, by decide⟩

/-- C1 (amended): the leaderboard is the aggregates sequence stably sorted
by descending `overall` alone — it is a permutation of `aggregates`, sorted
so that each entry's `overall` is at least the next one's, and any two
entries ordered consistently with the comparator (in particular any two
with equal `overall`, in their original order) keep their relative order;
mean accuracy and model id are not consulted. -/
theorem leaderboard_stable_sort_by_overall :
    ∀ sim : SimulationOutcome,
      (leaderboard (some sim)).Perm sim.aggregates ∧
      (leaderboard (some sim)).Sorted precedesByOverall ∧
      (∀ a b : AggregatedScore, List.Sublist [a, b] sim.aggregates →
        b.overall ≤ a.overall → List.Sublist [a, b] (leaderboard (some sim))) := by
  intro sim
  refine ⟨List.perm_insertionSort precedesByOverall sim.aggregates,
    List.sorted_insertionSort precedesByOverall sim.aggregates, ?_⟩
  intro a b hsub hba
  exact List.pair_sublist_insertionSort hba hsub

/-- Witness for C1's amended claim at the tied outcome. -/
theorem leaderboard_stable_sort_by_overall_witness :
    (leaderboard (some tieOutcome)).Perm tieOutcome.aggregates ∧
    (leaderboard (some tieOutcome)).Sorted precedesByOverall ∧
    List.Sublist [tieAggA, tieAggB] (leaderboard (some tieOutcome)) :=
  ⟨(leaderboard_stable_sort_by_overall tieOutcome).1,
   (leaderboard_stable_sort_by_overall tieOutcome).2.1,
   (leaderboard_stable_sort_by_overall tieOutcome).2.2 tieAggA tieAggB
     (List.Sublist.refl _) (by decide)⟩

/-! ### C4 -/

/-- The (judge, target) id pairs of a cross-evaluation list. -/
def evalPairs (evals : List CrossEvaluation) : List (String × String) :=
  evals.map (fun e => (e.judgeModelId, e.targetModelId))

/-- Sum of a map that is constant on the list. -/
theorem sum_map_length_const {α : Type} (l : List α) (g : α → Nat) (c : Nat)
    (h : ∀ a ∈ l, g a = c) : (l.map g).sum = l.length * c := by
  induction l with
  | nil => simp
  | cons x xs ih =>
    simp only [List.map_cons, List.sum_cons, List.length_cons,
      h x (List.mem_cons_self x xs)]
    rw [ih (fun a ha => h a (List.mem_cons_of_mem _ ha))]
    ring

/-- Removing one id from a duplicate-free list by filtering drops exactly
one element. -/
theorem length_filter_ne (l : List String) (j : String) (hn : l.Nodup)
    (hj : j ∈ l) : (l.filter (fun t => t ≠ j)).length = l.length - 1 := by
  induction l with
  | nil => cases hj
  | cons x xs ih =>
    rw [List.nodup_cons] at hn
    rcases List.mem_cons.mp hj with heq | hj'
    · have hall : xs.filter (fun t => t ≠ j) = xs :=
        List.filter_eq_self.mpr (fun t ht => by
          simp only [decide_eq_true_eq]
          intro h
          rw [h, heq] at ht
          exact hn.1 ht)
      have hhead : decide (x ≠ j) = false := by
        simp [heq]
      rw [List.filter_cons, hhead]
      simp only [Bool.false_eq_true, if_false]
      rw [hall]
      simp
    · have hxj : x ≠ j := fun h => hn.1 (h ▸ hj')
      have hpos : 0 < xs.length := List.length_pos.mpr (List.ne_nil_of_mem hj')
      have hhead : decide (x ≠ j) = true := by simp [hxj]
      rw [List.filter_cons, hhead, if_pos rfl]
      simp only [List.length_cons, ih hn.2 hj']
      omega

/-- Filtering responses on a model-id condition has the same length as
filtering the id list itself. -/
theorem length_filter_modelId (rs : List ModelResponse) (k : String) :
    (rs.filter (fun t => t.modelId ≠ k)).length =
      ((rs.map (fun r => r.modelId)).filter (fun t => t ≠ k)).length := by
  rw [← List.countP_eq_length_filter, ← List.countP_eq_length_filter,
    List.countP_map]
  rfl

/-- No cross-evaluation produced by the matrix builder is a self-pair. -/
theorem buildCross_no_self (rs : List ModelResponse) :
    ∀ e ∈ buildCrossEvaluations rs, e.judgeModelId ≠ e.targetModelId := by
  intro e he
  unfold buildCrossEvaluations at he
  simp only [List.mem_flatMap, List.mem_map, List.mem_filter,
    decide_eq_true_eq] at he
  obtain ⟨j, _hj, t, ⟨_ht, hne⟩, rfl⟩ := he
  intro hc
  exact hne (Eq.symm hc)

/-- The matrix builder emits `n * (n - 1)` evaluations when the response
model ids are duplicate-free. -/
theorem buildCross_length (rs : List ModelResponse)
    (hn : (rs.map (fun r => r.modelId)).Nodup) :
    (buildCrossEvaluations rs).length = rs.length * (rs.length - 1) := by
  unfold buildCrossEvaluations
  rw [List.length_flatMap]
  have hlen : ∀ j ∈ rs,
      ((rs.filter (fun t => t.modelId ≠ j.modelId)).map
        (fun t => crossEvaluate j.modelId t)).length = rs.length - 1 := by
    intro j hj
    rw [List.length_map, length_filter_modelId,
      length_filter_ne _ _ hn (List.mem_map_of_mem _ hj), List.length_map]
  calc (rs.map (List.length ∘ fun judge =>
        (rs.filter (fun t => t.modelId ≠ judge.modelId)).map
          (fun t => crossEvaluate judge.modelId t))).sum
      = rs.length * (rs.length - 1) :=
        sum_map_length_const rs _ (rs.length - 1) (fun j hj => hlen j hj)

/-- The pair list of the matrix, pushed through to ids. -/
theorem evalPairs_buildCross (rs : List ModelResponse) :
    evalPairs (buildCrossEvaluations rs)
      = rs.flatMap (fun j => (rs.filter (fun t => t.modelId ≠ j.modelId)).map
          (fun t => (j.modelId, t.modelId))) := by
  unfold evalPairs buildCrossEvaluations
  rw [List.map_flatMap]
  congr 1
  funext j
  rw [List.map_map]
  rfl

/-- Membership in the pair list is exactly the ordered distinct pairs over
the response model ids. -/
theorem evalPairs_mem (rs : List ModelResponse) (j t : String) :
    (j, t) ∈ evalPairs (buildCrossEvaluations rs) ↔
      (j ∈ rs.map (fun r => r.modelId) ∧ t ∈ rs.map (fun r => r.modelId) ∧
        j ≠ t) := by
  rw [evalPairs_buildCross]
  simp only [List.mem_flatMap, List.mem_map, List.mem_filter,
    decide_eq_true_eq, Prod.mk.injEq]
  constructor
  · rintro ⟨jr, hjr, tr, ⟨htr, hne⟩, hj, ht⟩
    subst hj
    subst ht
    exact ⟨⟨jr, hjr, rfl⟩, ⟨tr, htr, rfl⟩, fun hc => hne (Eq.symm hc)⟩
  · rintro ⟨⟨jr, hjr, hj⟩, ⟨tr, htr, ht⟩, hne⟩
    subst hj
    subst ht
    exact ⟨jr, hjr, tr, ⟨htr, fun hc => hne (Eq.symm hc)⟩, rfl, rfl⟩

/-- The pair list has no duplicates when the response model ids are
duplicate-free: one evaluation per ordered pair. -/
theorem evalPairs_nodup (rs : List ModelResponse)
    (hn : (rs.map (fun r => r.modelId)).Nodup) :
    (evalPairs (buildCrossEvaluations rs)).Nodup := by
  rw [evalPairs_buildCross]
  rw [List.nodup_flatMap]
  constructor
  · intro jr _hjr
    have hsub : ((rs.filter (fun t => t.modelId ≠ jr.modelId)).map
        (fun r => r.modelId)).Sublist (rs.map (fun r => r.modelId)) :=
      List.Sublist.map _ (List.filter_sublist rs)
    have hnd : ((rs.filter (fun t => t.modelId ≠ jr.modelId)).map
        (fun r => r.modelId)).Nodup := List.Nodup.sublist hsub hn
    have hrw : (rs.filter (fun t => t.modelId ≠ jr.modelId)).map
          (fun t => (jr.modelId, t.modelId))
        = ((rs.filter (fun t => t.modelId ≠ jr.modelId)).map
            (fun r => r.modelId)).map (fun k => (jr.modelId, k)) := by
      rw [List.map_map]
      rfl
    rw [hrw]
    exact List.Nodup.map (fun a b h => congrArg Prod.snd h) hnd
  · have hpw : rs.Pairwise (fun a b => a.modelId ≠ b.modelId) :=
      (List.pairwise_map.mp (by simpa [List.Nodup] using hn))
    refine hpw.imp ?_
    intro a b hab
    intro x hx1 hx2
    simp only [List.mem_map, List.mem_filter] at hx1 hx2
    obtain ⟨t1, _, hx1⟩ := hx1
    obtain ⟨t2, _, hx2⟩ := hx2
    apply hab
    have h1 : x.1 = a.modelId := by rw [← hx1]
    have h2 : x.1 = b.modelId := by rw [← hx2]
    rw [← h1, h2]

/-- C4: on a valid selection of size `N ∈ {4, 5}` the engine returns an
outcome with exactly `N * (N - 1)` cross-evaluations, one per ordered pair
of distinct selected models (pairs are duplicate-free and range over
exactly the distinct ordered pairs), and never a self-pair. -/
theorem simulateEvaluation_cross_matrix :
    ∀ (sel : List String) (p : PromptPayload),
      4 ≤ sel.length → sel.length ≤ 5 → sel.Nodup →
      (∀ id ∈ sel, (getModelById id).isSome = true) →
      jsTrim p.text ≠ "" →
      ∃ out : SimulationOutcome,
        simulateEvaluation sel p = Except.ok out ∧
        out.crossEvaluations.length = sel.length * (sel.length - 1) ∧
        (∀ e ∈ out.crossEvaluations, e.judgeModelId ≠ e.targetModelId) ∧
        (evalPairs out.crossEvaluations).Nodup ∧
        (∀ j t : String, (j, t) ∈ evalPairs out.crossEvaluations ↔
          (j ∈ sel ∧ t ∈ sel ∧ j ≠ t)) := by
  intro sel p h4 h5 hnd hknown hp
  have hg1 : ¬(sel.length < 4 ∨ 5 < sel.length) := by omega
  have hg2 : ¬¬sel.Nodup := not_not_intro hnd
  have hg3 : ¬(sel.any (fun id => (getModelById id).isNone) = true) := by
    rw [List.any_eq_true]
    rintro ⟨id, hid, hnone⟩
    rw [Option.isNone_iff_eq_none] at hnone
    have hs := hknown id hid
    rw [hnone] at hs
    simp at hs
  have hkeys : ((sel.map (fun id => synthesizeResponse id p)).map
      (fun r => r.modelId)) = sel := by
    rw [List.map_map]
    have hcomp : ((fun r : ModelResponse => r.modelId) ∘
        (fun id => synthesizeResponse id p)) = fun id : String => id := rfl
    rw [hcomp, List.map_id']
  have hknd : ((sel.map (fun id => synthesizeResponse id p)).map
      (fun r => r.modelId)).Nodup := by
    rw [hkeys]
    exact hnd
  have heq : simulateEvaluation sel p = Except.ok
      { responses := sel.map (fun id => synthesizeResponse id p)
      , crossEvaluations :=
          buildCrossEvaluations (sel.map (fun id => synthesizeResponse id p))
      , aggregates := sel.map (fun id => aggregateFor
          (buildCrossEvaluations (sel.map (fun id => synthesizeResponse id p))) id)
      , topThree := (List.insertionSort rankPrecedes
          (sel.map (fun id => aggregateFor
            (buildCrossEvaluations (sel.map (fun id => synthesizeResponse id p)))
            id))).take 3
      , geminiRanking := geminiRankingOf
          ((List.insertionSort rankPrecedes
            (sel.map (fun id => aggregateFor
              (buildCrossEvaluations (sel.map (fun id => synthesizeResponse id p)))
              id))).take 3) p } := by
    unfold simulateEvaluation
    rw [if_neg hg1, if_neg hg2, if_neg hg3, if_neg hp]
  refine ⟨_, heq, ?_, ?_, ?_, ?_⟩
  · show (buildCrossEvaluations (sel.map (fun id => synthesizeResponse id p))).length = _
    rw [buildCross_length _ hknd, List.length_map]
  · exact buildCross_no_self _
  · exact evalPairs_nodup _ hknd
  · intro j t
    show (j, t) ∈ evalPairs (buildCrossEvaluations
        (sel.map (fun id => synthesizeResponse id p))) ↔ _
    rw [evalPairs_mem, hkeys]

/-- The selection used in the C4 witness. -/
def witnessSel : List String := ["gpt-5", "claude-sonnet-4", "llama-4", "qwen-3"]

/-- The prompt used in the C4 witness. -/
def witnessPrompt : PromptPayload :=
  ⟨"Summarize quarterly earnings", none, none, "text"⟩

/-- Witness for C4 at a concrete valid selection of four known models. -/
theorem simulateEvaluation_cross_matrix_witness :
    ∃ out : SimulationOutcome,
      simulateEvaluation witnessSel witnessPrompt = Except.ok out ∧
      out.crossEvaluations.length = witnessSel.length * (witnessSel.length - 1) ∧
      (∀ e ∈ out.crossEvaluations, e.judgeModelId ≠ e.targetModelId) ∧
      (evalPairs out.crossEvaluations).Nodup ∧
      (∀ j t : String, (j, t) ∈ evalPairs out.crossEvaluations ↔
        (j ∈ witnessSel ∧ t ∈ witnessSel ∧ j ≠ t)) :=
  simulateEvaluation_cross_matrix witnessSel witnessPrompt (by decide) (by decide)
    (by decide) (by decide) (by decide)
